import Mathlib

/-!
Verification of the vector-memory subsystem of the agent-memory service.

Shallow embedding of the Rust source:
- pure control flow is translated function-by-function;
- network I/O is modelled by passing each HTTP call's outcome as an
  explicit argument (a response oracle), and side effects (network
  requests, embedding calls, session-store calls) are recorded in an
  explicit trace so that "no network call happened" is provable;
- `f32` values that merely flow through the code untouched (embedding
  coordinates, similarity scores) are modelled as rationals;
- fresh UUIDs are supplied as explicit arguments.

Module map: `Mem` ← src/memory.rs, `Qdrant` ← src/vector_store.rs,
`Emb` ← src/embedding/, `Routes` ← src/routes.rs.
-/

namespace AgentMemory

/-- `serde_json::Value`. Numbers are modelled as integers (Qdrant point
ids are unsigned integers; no claim depends on non-integer payload
numbers). -/
inductive Json where
  | str (s : String)
  | num (n : Int)
  | boolean (b : Bool)
  | null
  | arr (elems : List Json)
  | obj (fields : List (String × Json))

/-- Whether a JSON value is a string (the `Value::String` arm). -/
def Json.isStr : Json → Bool
  | .str _ => true
  | _ => false

/-- Association-list model of `HashMap<String, V>`: first binding of a key
wins on lookup; maps built by the code keep keys unique. -/
def lookupKey (k : String) : List (String × β) → Option β
  | [] => none
  | (k2, v) :: rest => if k2 == k then some v else lookupKey k rest

/-- `HashMap::contains_key`. -/
def containsKey (k : String) (m : List (String × β)) : Bool :=
  m.any (fun p => p.1 == k)

/-- `HashMap::remove`, for maps with unique keys (removes every binding of
the key, which coincides with removing the single one). -/
def removeKey (k : String) (m : List (String × β)) : List (String × β) :=
  m.filter (fun p => p.1 != k)

/-- `HashMap::insert`: replaces any existing binding of the key. -/
def insertKey (k : String) (v : β) (m : List (String × β)) : List (String × β) :=
  removeKey k m ++ [(k, v)]

-- ---------------------------------------------------------------------------
-- src/memory.rs — in-process vector store
-- ---------------------------------------------------------------------------

namespace Mem

/-- `MemoryEntry` (src/memory.rs). The embedding is an `f32` vector in the
source, modelled as a rational vector. -/
structure MemoryEntry where
  id : String
  text : String
  metadata : List (String × String)
  session : Option String
  embedding : List Rat
deriving Repr, DecidableEq

/-- `SearchResult` (src/memory.rs). -/
structure SearchResult where
  id : String
  text : String
  metadata : List (String × String)
  session : Option String
  score : Rat
deriving Repr, DecidableEq

/-- The `MemoryStore`'s backing `HashMap<String, MemoryEntry>` (the
`RwLock` only guards concurrent access; each operation sees and produces
one map state). The list order stands for the map's arbitrary iteration
order. -/
abbrev MemoryMap := List (String × MemoryEntry)

/-- `MemoryStore::store`: builds the entry, inserts it under the freshly
generated UUID (supplied here explicitly as `freshId`) and returns the id.
-/
def store (m : MemoryMap) (freshId : String) (text : String)
    (metadata : List (String × String)) (session : Option String)
    (embedding : List Rat) : String × MemoryMap :=
  let entry : MemoryEntry :=
    { id := freshId, text := text, metadata := metadata,
      session := session, embedding := embedding }
  (freshId, insertKey freshId entry m)

/-- `MemoryStore::delete`: `remove(id).is_some()` — returns whether the
key was present, and the map without it. -/
def delete (m : MemoryMap) (id : String) : Bool × MemoryMap :=
  (containsKey id m, removeKey id m)

/-- `MemoryStore::search`. The similarity score is computed by the `f32`
function `cosine_similarity` in the source; since the ranking, limit and
filter semantics do not depend on how the score is computed, the scoring
function is abstracted as the parameter `sim`. The sort is
`sort_by(|a, b| b.score.partial_cmp(&a.score))` — stable, descending by
score — followed by `truncate(limit)`. -/
def search (m : MemoryMap) (sim : List Rat → List Rat → Rat)
    (queryEmbedding : List Rat) (limit : Nat) (session : Option String) :
    List SearchResult :=
  let scored : List SearchResult :=
    ((m.map Prod.snd).filter (fun e =>
        match session with
        | some s => e.session == some s
        | none => true)).map (fun e =>
      { id := e.id, text := e.text, metadata := e.metadata,
        session := e.session, score := sim queryEmbedding e.embedding })
  (scored.mergeSort (fun a b => decide (b.score ≤ a.score))).take limit

/-- The states of the in-process store reachable from `MemoryStore::new()`
by any sequence of `store` and `delete` calls (with arbitrary generated
ids and arguments). -/
inductive Reachable : MemoryMap → Prop where
  | new : Reachable []
  | step_store (m : MemoryMap) (freshId text : String)
      (metadata : List (String × String)) (session : Option String)
      (embedding : List Rat) :
      Reachable m →
      Reachable (store m freshId text metadata session embedding).2
  | step_delete (m : MemoryMap) (id : String) :
      Reachable m → Reachable (delete m id).2

end Mem

-- ---------------------------------------------------------------------------
-- src/error.rs — error taxonomies
-- ---------------------------------------------------------------------------

/-- `EmbeddingError` (src/error.rs). `HttpError` carries the rendered
`reqwest::Error`. -/
inductive EmbeddingError where
  | httpError (msg : String)
  | providerNotFound (name : String)
  | invalidResponse (msg : String)
  | authenticationError
  | providerError (status : Nat) (message : String)
  | configError (msg : String)
  | badRequest (msg : String)
  | memoryNotFound (id : String)
deriving Repr, DecidableEq

/-- `SessionError` (src/error.rs). -/
inductive SessionError where
  | database (msg : String)
  | migration (msg : String)
  | serialization (msg : String)
  | notFound (id : String)
  | notConfigured
  | badRequest (msg : String)
  | unauthorized (msg : String)
deriving Repr, DecidableEq

/-- The `thiserror` display string of a `SessionError` (`e.to_string()`). -/
def SessionError.toMessage : SessionError → String
  | .database m => "Database error: " ++ m
  | .migration m => "Migration error: " ++ m
  | .serialization m => "Serialization error: " ++ m
  | .notFound id => "Session not found: " ++ id
  | .notConfigured => "Session store not configured"
  | .badRequest m => "Bad request: " ++ m
  | .unauthorized m => "Unauthorized: " ++ m

/-- `VectorStoreError` (src/error.rs). `Http` carries the rendered
`reqwest::Error`. -/
inductive VectorStoreError where
  | http (msg : String)
  | api (status : Nat) (message : String)
  | invalidResponse (msg : String)
  | notConfigured
  | badRequest (msg : String)
  | unauthorized (msg : String)
  | internalDependencyError (msg : String)
  | embedding (e : EmbeddingError)
deriving Repr, DecidableEq

-- ---------------------------------------------------------------------------
-- Network modelling
-- ---------------------------------------------------------------------------

/-- Outcome of one `reqwest` send: a transport error (connection failure /
timeout) or an HTTP response with status code and body text. The body
text is what `resp.text()` yields (already standing for the
`<failed to read response body>` placeholder when unreadable). -/
inductive NetResult where
  | netError (msg : String)
  | status (code : Nat) (body : String)
deriving Repr, DecidableEq

/-- `reqwest::StatusCode::is_success` — 2xx. -/
def isSuccess (code : Nat) : Bool := 200 ≤ code && code < 300

/-- Side effects of a handler run, recorded so "no network call / no
embedding call happened" is provable. -/
inductive Effect where
  | embedCall (provider : String) (text : String)
  | qdrantUpsertRequest (pointId : String) (vector : List Rat)
      (payload : List (String × Json))
  | sessionGet (sid : String)
  | sessionTouch (sid : String)

-- ---------------------------------------------------------------------------
-- src/vector_store.rs — Qdrant remote store
-- ---------------------------------------------------------------------------

namespace Qdrant

/-- `api_error`: converts a non-2xx response (status, body text) into
`VectorStoreError::Api`. -/
def api_error (code : Nat) (body : String) : VectorStoreError := .api code body

/-- `QdrantStore::try_ensure_collection`, as a function of the outcomes of
its (at most two) HTTP calls: the GET existence check and, on 404, the PUT
create. -/
def try_ensure_collection (getResp putResp : NetResult) :
    Except VectorStoreError Unit :=
  match getResp with
  | .netError m => .error (.http m)
  | .status 200 _ => .ok ()
  | .status 404 _ =>
      match putResp with
      | .netError m => .error (.http m)
      | .status code body =>
          if isSuccess code then .ok () else .error (api_error code body)
  | .status code body => .error (api_error code body)

/-- The transience test inside `ensure_collection`:
`VectorStoreError::Http(_) | Api { status: 429 | 503, .. }`. -/
def is_transient : VectorStoreError → Bool
  | .http _ => true
  | .api 429 _ => true
  | .api 503 _ => true
  | _ => false

/-- Result of a full `ensure_collection` run: final outcome, number of
attempts performed, and the list of backoff waits (in seconds) slept
between consecutive attempts. -/
structure EnsureTrace where
  result : Except VectorStoreError Unit
  attempts : Nat
  waits : List Nat
deriving Repr

/-- The retry loop of `QdrantStore::ensure_collection`. `oracle k` gives
the (GET, PUT) outcomes of attempt number `k` (1-based). The source loop
is bounded by `max_attempts = 5`; `fuel` makes that bound structural — the
out-of-fuel arm is unreachable for `fuel = 5` starting from `attempts = 0`
because the loop recurses only while `attempts + 1 < 5`. -/
def ensureLoop (oracle : Nat → NetResult × NetResult) :
    Nat → Nat → EnsureTrace
  | fuel + 1, attempts =>
      let att := attempts + 1
      match try_ensure_collection (oracle att).1 (oracle att).2 with
      | .ok _ => { result := .ok (), attempts := att, waits := [] }
      | .error e =>
          if is_transient e && att < 5 then
            let rest := ensureLoop oracle fuel att
            { result := rest.result, attempts := rest.attempts,
              waits := 2 ^ (att - 1) :: rest.waits }
          else { result := .error e, attempts := att, waits := [] }
  | 0, attempts =>
      { result := .error (.http "out of fuel (unreachable)"),
        attempts := attempts, waits := [] }

/-- `QdrantStore::ensure_collection`: at most `max_attempts = 5` attempts,
waiting `2^(attempts-1)` seconds before each retry. -/
def ensure_collection (oracle : Nat → NetResult × NetResult) : EnsureTrace :=
  ensureLoop oracle 5 0

/-- The reserved-key rejection message in `QdrantStore::upsert`. -/
def RESERVED_TEXT_KEY_MESSAGE : String :=
  "\x27text\x27 is a reserved metadata key; it is used internally to store the original text of the embedding. Please use a different key for your custom metadata."

/-- `QdrantStore::upsert`. `freshId` is the `Uuid::new_v4()` generated when
the caller supplied no id; `net` is the outcome of the PUT points request
when it is sent. The effect trace records the network request (with the
exact point id, vector and payload submitted) so that "no network call on
rejection" is provable. -/
def upsert (id : Option String) (freshId : String) (vector : List Rat)
    (text : String) (metadata : List (String × Json)) (net : NetResult) :
    Except VectorStoreError String × List Effect :=
  let point_id := id.getD freshId
  if containsKey "text" metadata then
    (.error (.badRequest RESERVED_TEXT_KEY_MESSAGE), [])
  else
    let payload := insertKey "text" (Json.str text) metadata
    match net with
    | .netError m =>
        (.error (.http m), [.qdrantUpsertRequest point_id vector payload])
    | .status code body =>
        if isSuccess code then
          (.ok point_id, [.qdrantUpsertRequest point_id vector payload])
        else
          (.error (api_error code body),
           [.qdrantUpsertRequest point_id vector payload])

/-- `QdrantHit` (private response type): id is a raw JSON value (string or
number in practice), plus score and the full payload. -/
structure QdrantHit where
  id : Json
  score : Rat
  payload : List (String × Json)

/-- `SearchResult` (src/vector_store.rs). -/
structure SearchResult where
  id : String
  score : Rat
  text : String
  metadata : List (String × Json)

end Qdrant

-- `serde_json::Value::to_string` (compact JSON rendering), used by the
-- `From<QdrantHit>` fallback arm for ids that are neither strings nor
-- numbers. String escaping is the identity on the characters exercised
-- here.
mutual

/-- Compact JSON rendering of a value (`Value::to_string`). -/
def Json.render : Json → String
  | .str s => "\"" ++ s ++ "\""
  | .num n => toString n
  | .boolean b => if b then "true" else "false"
  | .null => "null"
  | .arr es => "[" ++ Json.renderList es ++ "]"
  | .obj fs => "\x7b" ++ Json.renderFields fs ++ "\x7d"

def Json.renderList : List Json → String
  | [] => ""
  | [x] => Json.render x
  | x :: y :: xs => Json.render x ++ "," ++ Json.renderList (y :: xs)

def Json.renderFields : List (String × Json) → String
  | [] => ""
  | [(k, v)] => "\"" ++ k ++ "\":" ++ Json.render v
  | (k, v) :: q :: xs =>
      "\"" ++ k ++ "\":" ++ Json.render v ++ "," ++ Json.renderFields (q :: xs)

end

namespace Qdrant

/-- `impl From<QdrantHit> for SearchResult`: coerce the id to a string,
remove the reserved `text` key from the payload (keeping its value only
when it is a JSON string, else defaulting to the empty string), and expose
the rest of the payload as metadata. -/
def SearchResult.ofHit (hit : QdrantHit) : SearchResult :=
  let id :=
    match hit.id with
    | .str s => s
    | .num n => toString n
    | other => other.render
  let text :=
    match lookupKey "text" hit.payload with
    | some (.str s) => s
    | _ => ""
  { id := id, score := hit.score, text := text,
    metadata := removeKey "text" hit.payload }

/-- Outcome of the search POST: transport error, or a response whose body
parses (on success) to the hit list; `parsed = none` models a body that
fails to deserialize. -/
inductive SearchNet where
  | netError (msg : String)
  | response (status : Nat) (body : String) (parsed : Option (List QdrantHit))

/-- `QdrantStore::search`. The vector, limit and threshold only shape the
request body; the result is the backend's hit list converted hit-by-hit in
backend order. -/
def search (_vector : List Rat) (_limit : Nat) (_score_threshold : Option Rat)
    (net : SearchNet) : Except VectorStoreError (List SearchResult) :=
  match net with
  | .netError m => .error (.http m)
  | .response code body parsed =>
      if isSuccess code then
        match parsed with
        | none => .error (.invalidResponse "Failed to parse search response")
        | some hits => .ok (hits.map SearchResult.ofHit)
      else .error (api_error code body)

end Qdrant

-- ---------------------------------------------------------------------------
-- src/embedding/ — providers and registry
-- ---------------------------------------------------------------------------

namespace Emb

/-- `ProviderConfig` (src/config.rs). -/
structure ProviderConfig where
  provider_type : String
  base_url : String
  model : String
  api_key : Option String
  auth_scheme : Option String
  embeddings_path : Option String
deriving Repr, DecidableEq

/-- `str::trim_end_matches('/')`. -/
def trimEndSlashes (s : String) : String :=
  s.dropRightWhile (fun c => c == '/')

/-- The closed set of concrete providers built by `build_provider`; each
constructor carries the fields of the corresponding provider struct. -/
inductive Provider where
  | ollama (base_url model : String)
  | openai (base_url model api_key auth_scheme embeddings_path : String)
  | claude (base_url model api_key : String)
deriving Repr, DecidableEq

/-- `OllamaProvider::new`. -/
def OllamaProvider.new (cfg : ProviderConfig) : Provider :=
  .ollama (trimEndSlashes cfg.base_url) cfg.model

/-- `OpenAIProvider::new`. -/
def OpenAIProvider.new (cfg : ProviderConfig) : Provider :=
  .openai (trimEndSlashes cfg.base_url) cfg.model (cfg.api_key.getD "")
    (cfg.auth_scheme.getD "bearer") (cfg.embeddings_path.getD "/v1/embeddings")

/-- `ClaudeProvider::new`. -/
def ClaudeProvider.new (cfg : ProviderConfig) : Provider :=
  .claude (trimEndSlashes cfg.base_url) cfg.model (cfg.api_key.getD "")

/-- `build_provider` (src/embedding/mod.rs). -/
def build_provider (_name : String) (cfg : ProviderConfig) :
    Except EmbeddingError Provider :=
  match cfg.provider_type with
  | "ollama" => .ok (OllamaProvider.new cfg)
  | "openai" => .ok (OpenAIProvider.new cfg)
  | "claude" => .ok (ClaudeProvider.new cfg)
  | unknown =>
      .error (.configError ("Unknown provider type: \x27" ++ unknown ++ "\x27"))

/-- The provider types accepted by the arms of `build_provider`. -/
def recognizedProviderType (t : String) : Bool :=
  t == "ollama" || t == "openai" || t == "claude"

/-- `EmbeddingConfig` (src/config.rs); the provider map is modelled as an
association list (arbitrary iteration order of the `HashMap`). -/
structure EmbeddingConfig where
  default_provider : String
  providers : List (String × ProviderConfig)
deriving Repr, DecidableEq

/-- `ProviderRegistry` (src/embedding/mod.rs). -/
structure ProviderRegistry where
  providers : List (String × Provider)
  default : String
deriving Repr, DecidableEq

/-- The `for` loop of `ProviderRegistry::from_config`: build each
configured provider, failing fast on the first error. -/
def buildProviders :
    List (String × ProviderConfig) →
    Except EmbeddingError (List (String × Provider))
  | [] => .ok []
  | (name, pcfg) :: rest =>
      match build_provider name pcfg with
      | .error e => .error e
      | .ok p =>
          match buildProviders rest with
          | .error e => .error e
          | .ok ps => .ok ((name, p) :: ps)

/-- `ProviderRegistry::from_config`. -/
def ProviderRegistry.from_config (cfg : EmbeddingConfig) :
    Except EmbeddingError ProviderRegistry :=
  match buildProviders cfg.providers with
  | .error e => .error e
  | .ok ps => .ok { providers := ps, default := cfg.default_provider }

/-- `ProviderRegistry::get`: resolve the given name, falling back to the
default. -/
def ProviderRegistry.get (r : ProviderRegistry) (name : Option String) :
    Except EmbeddingError Provider :=
  let key := name.getD r.default
  match lookupKey key r.providers with
  | some p => .ok p
  | none => .error (.providerNotFound key)

/-- `ProviderRegistry::default_provider`. -/
def ProviderRegistry.default_provider (r : ProviderRegistry) : String :=
  r.default

/-- Outcome of a provider's embedding POST: transport error, or a response
with status, body text, and (when consulted) the body parsed as the
vendor envelope `β` (`none` models a deserialization failure). -/
inductive ProviderNet (β : Type) where
  | netError (msg : String)
  | response (status : Nat) (body : String) (parsed : Option β)

/-- `OllamaResponse`: `{"embeddings": [[…]]}`. -/
structure OllamaResponse where
  embeddings : List (List Rat)

/-- `EmbeddingObject`: `{"embedding": […]}` (OpenAI/Claude envelopes). -/
structure EmbeddingObject where
  embedding : List Rat

/-- `OpenAIResponse`: `{"data": [{"embedding": […]}]}`. -/
structure OpenAIResponse where
  data : List EmbeddingObject

/-- `ClaudeResponse`: `{"data": [{"embedding": […]}]}`. -/
structure ClaudeResponse where
  data : List EmbeddingObject

/-- `OllamaProvider::embed`: any non-success response becomes
`ProviderError { status, message }` (there is no 401/403 special case);
a successful response is parsed and its first embedding returned, an
empty array being `InvalidResponse`. -/
def OllamaProvider.embed (net : ProviderNet OllamaResponse) :
    Except EmbeddingError (List Rat) :=
  match net with
  | .netError m => .error (.httpError m)
  | .response status body parsed =>
      if isSuccess status then
        match parsed with
        | none => .error (.invalidResponse "Failed to parse Ollama response")
        | some r =>
            match r.embeddings with
            | [] => .error (.invalidResponse "Empty embeddings array")
            | v :: _ => .ok v
      else .error (.providerError status body)

/-- `OpenAIProvider::embed`: 401/403 become `AuthenticationError` before
the generic non-success check; then parse, first element of `data`. -/
def OpenAIProvider.embed (net : ProviderNet OpenAIResponse) :
    Except EmbeddingError (List Rat) :=
  match net with
  | .netError m => .error (.httpError m)
  | .response status body parsed =>
      if status == 401 || status == 403 then .error .authenticationError
      else if isSuccess status then
        match parsed with
        | none => .error (.invalidResponse "Failed to parse OpenAI response")
        | some r =>
            match r.data with
            | [] => .error (.invalidResponse "Empty data array")
            | obj :: _ => .ok obj.embedding
      else .error (.providerError status body)

/-- `ClaudeProvider::embed`: an empty configured api key short-circuits to
`AuthenticationError` before any request; then as for OpenAI. -/
def ClaudeProvider.embed (api_key : String)
    (net : ProviderNet ClaudeResponse) : Except EmbeddingError (List Rat) :=
  if api_key.isEmpty then .error .authenticationError
  else
    match net with
    | .netError m => .error (.httpError m)
    | .response status body parsed =>
        if status == 401 || status == 403 then .error .authenticationError
        else if isSuccess status then
          match parsed with
          | none => .error (.invalidResponse "Failed to parse Claude response")
          | some r =>
              match r.data with
              | [] => .error (.invalidResponse "Empty data array")
              | obj :: _ => .ok obj.embedding
        else .error (.providerError status body)

end Emb

-- ---------------------------------------------------------------------------
-- src/routes.rs — the Qdrant store-memory handler
-- ---------------------------------------------------------------------------

namespace Routes

/-- `EMPTY_TEXT_ERROR` (src/routes.rs). -/
def EMPTY_TEXT_ERROR : String := "Field \x27text\x27 must not be empty"

/-- Modelled from the spec: the reserved-`text`-key rejection message.
`RESERVED_TEXT_KEY_ERROR` is referenced by src/routes.rs but its defining
constant (in vector_store.rs in the full repository) is not part of this
snapshot; only the message content is unknown, not the behaviour. -/
def RESERVED_TEXT_KEY_ERROR : String :=
  "Metadata key \x27text\x27 is reserved"

/-- Modelled from the spec: the reserved-`session_id`-key rejection
message; same situation as `RESERVED_TEXT_KEY_ERROR`. -/
def RESERVED_SESSION_ID_KEY_ERROR : String :=
  "Metadata key \x27session_id\x27 is reserved"

/-- `constant_time_eq`: byte-wise constant-time comparison; functionally
plain equality. -/
def constant_time_eq (a b : String) : Bool := a == b

/-- `validate_session_auth`: when a session api key is configured the
`X-Api-Key` header must be present and match it. -/
def validate_session_auth (session_api_key provided : Option String) :
    Except SessionError Unit :=
  match session_api_key with
  | some expected =>
      match provided with
      | some key =>
          if constant_time_eq key expected then .ok ()
          else .error (.unauthorized "Invalid API key")
      | none => .error (.unauthorized "Missing X-Api-Key header")
  | none => .ok ()

/-- Outcome of `SessionStore::get(sid)` as observed by the handler. -/
inductive SessionGetResult where
  | dbError (msg : String)
  | missing
  | found
deriving Repr, DecidableEq

/-- Everything `store_memory_qdrant` reads from `AppState` and from the
outside world (network outcomes, generated UUID), passed explicitly. -/
structure HandlerEnv where
  /-- `AppState.session_api_key`. -/
  session_api_key : Option String
  /-- The request's `X-Api-Key` header, when present and utf8-readable. -/
  header_api_key : Option String
  /-- Whether `AppState.session_store` is configured. -/
  session_store_configured : Bool
  /-- Outcome of `store.get(sid)` when the handler calls it. -/
  sessionGet : String → SessionGetResult
  /-- Whether `AppState.vector_store` is configured. -/
  vector_store_configured : Bool
  registry : Emb.ProviderRegistry
  /-- Outcome of `provider.embed(text)` when the handler calls it (the
  per-vendor mapping is verified separately on the provider models). -/
  embedResult : Except EmbeddingError (List Rat)
  /-- The `Uuid::new_v4()` available to `QdrantStore::upsert`. -/
  freshId : String
  /-- Response to the upsert PUT when it is sent. -/
  upsertNet : NetResult

/-- `StoreMemoryQdrantRequest` (the `id` is the UUID already rendered to a
string). -/
structure StoreMemoryQdrantRequest where
  text : String
  id : Option String
  session_id : Option String
  metadata : List (String × Json)

/-- `StoreMemoryQdrantResponse`. -/
structure StoreMemoryQdrantResponse where
  id : String
  dimensions : Nat
  provider : String
  session_id : Option String

/-- `AppState::resolve_store_and_provider` (the store handle itself
carries no data relevant here, so only the provider key and provider are
returned). -/
def resolve_store_and_provider (env : HandlerEnv)
    (provider_override : Option String) :
    Except VectorStoreError (String × Emb.Provider) :=
  if env.vector_store_configured then
    let provider_key := provider_override.getD env.registry.default
    match env.registry.get (some provider_key) with
    | .ok p => .ok (provider_key, p)
    | .error e => .error (.embedding e)
  else .error .notConfigured

/-- `store_memory_qdrant` (src/routes.rs): validation, session auth and
existence checks, provider resolution, embed, reserved-key merge, upsert,
best-effort touch. The second component is the trace of effects actually
performed (embedding calls, network requests, session-store calls). -/
def store_memory_qdrant (env : HandlerEnv) (provider_override : Option String)
    (body : StoreMemoryQdrantRequest) :
    Except VectorStoreError StoreMemoryQdrantResponse × List Effect :=
  if body.text.isEmpty then
    (.error (.badRequest EMPTY_TEXT_ERROR), [])
  else if containsKey "text" body.metadata then
    (.error (.badRequest RESERVED_TEXT_KEY_ERROR), [])
  else if containsKey "session_id" body.metadata then
    (.error (.badRequest RESERVED_SESSION_ID_KEY_ERROR), [])
  else
    let authCheck : Except VectorStoreError Unit :=
      match body.session_id with
      | some _ =>
          match validate_session_auth env.session_api_key env.header_api_key with
          | .ok () => .ok ()
          | .error e => .error (.unauthorized e.toMessage)
      | none => .ok ()
    match authCheck with
    | .error e => (.error e, [])
    | .ok () =>
        let sessCheck : Except VectorStoreError Unit × List Effect :=
          match body.session_id with
          | none => (.ok (), [])
          | some sid =>
              if env.session_store_configured then
                match env.sessionGet sid with
                | .dbError m =>
                    (.error (.internalDependencyError
                        ("Session store error: " ++ m)), [.sessionGet sid])
                | .missing =>
                    (.error (.badRequest
                        ("Session \x27" ++ sid ++ "\x27 not found")),
                     [.sessionGet sid])
                | .found => (.ok (), [.sessionGet sid])
              else
                (.error (.badRequest
                    "Cannot associate a session_id: session store is not configured"),
                 [])
        match sessCheck with
        | (.error e, tr) => (.error e, tr)
        | (.ok (), tr1) =>
            match resolve_store_and_provider env provider_override with
            | .error e => (.error e, tr1)
            | .ok (provider_key, _provider) =>
                let tr2 := tr1 ++ [Effect.embedCall provider_key body.text]
                match env.embedResult with
                | .error e => (.error (.embedding e), tr2)
                | .ok embedding =>
                    let dimensions := embedding.length
                    let metadata :=
                      match body.session_id with
                      | some sid =>
                          insertKey "session_id" (Json.str sid) body.metadata
                      | none => body.metadata
                    match Qdrant.upsert body.id env.freshId embedding body.text
                        metadata env.upsertNet with
                    | (.error e, utr) => (.error e, tr2 ++ utr)
                    | (.ok id, utr) =>
                        let touchTr :=
                          match body.session_id with
                          | some sid =>
                              if env.session_store_configured then
                                [Effect.sessionTouch sid]
                              else []
                          | none => []
                        (.ok { id := id, dimensions := dimensions,
                               provider := provider_key,
                               session_id := body.session_id },
                         tr2 ++ utr ++ touchTr)

end Routes

-- ---------------------------------------------------------------------------
-- Concrete fixtures used by witness theorems
-- ---------------------------------------------------------------------------

/-- A concrete handler environment for witnesses: no session feature, a
registry with one ollama provider, a successful embed and upsert. -/
def exEnv : Routes.HandlerEnv where
  session_api_key := none
  header_api_key := none
  session_store_configured := false
  sessionGet := fun _ => .missing
  vector_store_configured := true
  registry := { providers := [("local", .ollama "http://localhost:11434" "nomic-embed-text")],
                default := "local" }
  embedResult := .ok [1, 0, 0]
  freshId := "00000000-0000-0000-0000-000000000001"
  upsertNet := .status 200 "ok"

/-- A request whose metadata abuses the reserved `text` key. -/
def exBodyTextKey : Routes.StoreMemoryQdrantRequest where
  text := "hello"
  id := none
  session_id := none
  metadata := [("text", Json.str "oops")]

/-- A request whose metadata abuses the reserved `session_id` key. -/
def exBodySessionKey : Routes.StoreMemoryQdrantRequest where
  text := "hello"
  id := none
  session_id := none
  metadata := [("session_id", Json.str "oops")]

/-- Attempt oracle for `ensure_collection` witnesses: the GET existence
check returns 503 on attempts 1 and 2 and 200 from attempt 3 on. -/
def ex503TwiceOracle (k : Nat) : NetResult × NetResult :=
  if k ≤ 2 then (.status 503 "busy", .status 200 "")
  else (.status 200 "", .status 200 "")

/-- Attempt oracle for `ensure_collection` witnesses: the GET existence
check always returns 500. -/
def ex500Oracle (_k : Nat) : NetResult × NetResult :=
  (.status 500 "internal error", .status 200 "")

/-- Specification predicate for an `ensure_collection` run that begins
after `lo` already-performed attempts: the attempt count stays within the
budget of 5; the final result is exactly the outcome of the last attempt;
the backoff waits slept are `2^(k-1)` seconds after each attempt
`k = lo+1, …, attempts-1`; every attempt before the last failed with a
transient error; and a final failure is either non-transient or happened
on attempt 5. -/
def EnsureSpec (oracle : Nat → NetResult × NetResult) (lo : Nat)
    (t : Qdrant.EnsureTrace) : Prop :=
  (lo + 1 ≤ t.attempts ∧ t.attempts ≤ 5)
  ∧ t.result = Qdrant.try_ensure_collection (oracle t.attempts).1
      (oracle t.attempts).2
  ∧ t.waits = (List.range' lo (t.attempts - 1 - lo)).map (fun k => 2 ^ k)
  ∧ (∀ k, lo < k → k < t.attempts →
      ∃ e, Qdrant.try_ensure_collection (oracle k).1 (oracle k).2 = .error e
        ∧ Qdrant.is_transient e = true)
  ∧ (∀ e, t.result = .error e →
      Qdrant.is_transient e = false ∨ t.attempts = 5)

-- ---------------------------------------------------------------------------
-- Helper lemmas (shared)
-- ---------------------------------------------------------------------------

/-- Induction over the retry loop: starting with `attempts = a` and
`fuel = 5 - a ≥ 1`, the loop satisfies `EnsureSpec` above `a`. -/
theorem ensureLoop_spec (oracle : Nat → NetResult × NetResult) :
    ∀ (fuel a : Nat), 1 ≤ fuel → a + fuel = 5 →
      EnsureSpec oracle a (Qdrant.ensureLoop oracle fuel a) := by
  intro fuel
  induction fuel with
  | zero => intro a h _; omega
  | succ n ih =>
      intro a _ hsum
      cases htry : Qdrant.try_ensure_collection (oracle (a + 1)).1
          (oracle (a + 1)).2 with
      | ok u =>
          have hloop : Qdrant.ensureLoop oracle (n + 1) a
              = { result := .ok (), attempts := a + 1, waits := [] } := by
            simp [Qdrant.ensureLoop, htry]
          rw [hloop]
          simp only [EnsureSpec]
          refine ⟨⟨by omega, by omega⟩, ?_, ?_, ?_, ?_⟩
          · rw [htry]
          · simp
          · intro k hk1 hk2; omega
          · intro e he; simp at he
      | error e =>
          by_cases hg : (Qdrant.is_transient e && decide (a + 1 < 5)) = true
          · have hg2 := hg
            rw [Bool.and_eq_true] at hg2
            obtain ⟨htr, hlt'⟩ := hg2
            have hlt : a + 1 < 5 := of_decide_eq_true hlt'
            have hn1 : 1 ≤ n := by omega
            have hsum' : (a + 1) + n = 5 := by omega
            have IH := ih (a + 1) hn1 hsum'
            have hloop : Qdrant.ensureLoop oracle (n + 1) a
                = { result := (Qdrant.ensureLoop oracle n (a + 1)).result,
                    attempts := (Qdrant.ensureLoop oracle n (a + 1)).attempts,
                    waits := 2 ^ (a + 1 - 1)
                      :: (Qdrant.ensureLoop oracle n (a + 1)).waits } := by
              simp only [Qdrant.ensureLoop, htry, hg, if_true]
            rw [hloop]
            rcases IH with ⟨⟨hb1, hb2⟩, hres, hwaits, hbetween, hfinal⟩
            simp only [EnsureSpec] at *
            refine ⟨⟨by omega, hb2⟩, hres, ?_, ?_, hfinal⟩
            · have hm : (Qdrant.ensureLoop oracle n (a + 1)).attempts - 1 - a
                  = ((Qdrant.ensureLoop oracle n (a + 1)).attempts - 1 - (a + 1))
                    + 1 := by omega
              simp only [hwaits, hm, List.range'_succ, List.map_cons,
                Nat.add_sub_cancel]
            · intro k hk1 hk2
              rcases Nat.lt_or_ge (a + 1) k with hk | hk
              · exact hbetween k hk hk2
              · have hka : k = a + 1 := by omega
                subst hka
                exact ⟨e, htry, htr⟩
          · have hloop : Qdrant.ensureLoop oracle (n + 1) a
                = { result := .error e, attempts := a + 1, waits := [] } := by
              simp only [Qdrant.ensureLoop, htry]
              rw [if_neg hg]
            rw [hloop]
            simp only [EnsureSpec]
            refine ⟨⟨by omega, by omega⟩, ?_, ?_, ?_, ?_⟩
            · rw [htry]
            · simp
            · intro k hk1 hk2; omega
            · intro e' he'
              simp only [Except.error.injEq] at he'
              subst he'
              by_cases htr : Qdrant.is_transient e = true
              · right
                have hnlt : ¬ (a + 1 < 5) := by
                  intro hlt
                  exact hg (by simp [htr, hlt])
                omega
              · exact Or.inl (by simpa using htr)

theorem mem_removeKey {β : Type} (k : String) (m : List (String × β))
    (p : String × β) : p ∈ removeKey k m ↔ p ∈ m ∧ p.1 ≠ k := by
  simp [removeKey, List.mem_filter]

theorem containsKey_removeKey {β : Type} (k : String)
    (m : List (String × β)) : containsKey k (removeKey k m) = false := by
  simp only [containsKey, removeKey, List.any_eq_false]
  intro p hp
  rcases List.mem_filter.1 hp with ⟨_, hne⟩
  simpa using hne

theorem lookupKey_append_right {β : Type} (k : String) (v : β)
    (l : List (String × β)) (h : ∀ p ∈ l, p.1 ≠ k) :
    lookupKey k (l ++ [(k, v)]) = some v := by
  induction l with
  | nil => simp [lookupKey]
  | cons p rest ih =>
      have hp : p.1 ≠ k := h p (by simp)
      simp only [List.cons_append, lookupKey]
      rw [if_neg (by simpa using hp)]
      exact ih (fun q hq => h q (by simp [hq]))

theorem lookupKey_insertKey {β : Type} (k : String) (v : β)
    (m : List (String × β)) : lookupKey k (insertKey k v m) = some v := by
  apply lookupKey_append_right
  intro p hp
  exact ((mem_removeKey k m p).1 hp).2

namespace Mem

/-- Every state reachable by `store`/`delete` keeps each entry under the
key equal to the entry's own `id` field. -/
theorem reachable_key_eq_id (m : MemoryMap) (hm : Reachable m) :
    ∀ p ∈ m, p.2.id = p.1 := by
  induction hm with
  | new => intro p hp; simp at hp
  | step_store m fid text md sess emb _ ih =>
      intro p hp
      simp only [store, insertKey] at hp
      rcases List.mem_append.1 hp with h | h
      · exact ih p ((mem_removeKey fid m p).1 h).1
      · simp at h
        subst h
        rfl
  | step_delete m id _ ih =>
      intro p hp
      exact ih p ((mem_removeKey id m p).1 hp).1

/-- `search` output is sorted by score, descending (the stable sort uses
the comparator `b.score.partial_cmp(&a.score)`, and `take` preserves
sortedness). -/
theorem search_sorted (m : MemoryMap) (sim : List Rat → List Rat → Rat)
    (q : List Rat) (limit : Nat) (sess : Option String) :
    (search m sim q limit sess).Sorted (fun a b => b.score ≤ a.score) := by
  simp only [search]
  apply List.Pairwise.sublist (List.take_sublist _ _)
  have hs := @List.sorted_mergeSort SearchResult
    (fun a b : SearchResult => decide (b.score ≤ a.score))
    (fun a b c hab hbc => by
      simp only [decide_eq_true_eq] at hab hbc ⊢
      exact le_trans hbc hab)
    (fun a b => by
      simp only [Bool.or_eq_true, decide_eq_true_eq]
      exact le_total b.score a.score)
    (((m.map Prod.snd).filter (fun e =>
        match sess with
        | some s => e.session == some s
        | none => true)).map (fun e =>
      { id := e.id, text := e.text, metadata := e.metadata,
        session := e.session, score := sim q e.embedding }))
  exact hs.imp (fun h => of_decide_eq_true h)

/-- Every result of `search` stems from a stored entry: it shares that
entry's `id` and `session`, and the entry passes the session filter. -/
theorem mem_search_imp (m : MemoryMap) (sim : List Rat → List Rat → Rat)
    (q : List Rat) (limit : Nat) (sess : Option String)
    (r : SearchResult) (hr : r ∈ search m sim q limit sess) :
    ∃ e ∈ m.map Prod.snd, r.id = e.id ∧ r.session = e.session ∧
      (∀ s, sess = some s → e.session = some s) := by
  simp only [search] at hr
  have h1 := (List.take_sublist _ _).subset hr
  have h2 := (List.mergeSort_perm _ _).subset h1
  rcases List.mem_map.1 h2 with ⟨e, he, hre⟩
  rcases List.mem_filter.1 he with ⟨hmem, hpred⟩
  refine ⟨e, hmem, ?_, ?_, ?_⟩
  · rw [← hre]
  · rw [← hre]
  · intro s hs
    subst hs
    simpa using hpred

end Mem

-- ---------------------------------------------------------------------------
-- Claim theorems
-- ---------------------------------------------------------------------------

/-- C2: `ensure_collection` makes between 1 and 5 attempts; its result is
exactly the outcome of the last attempt made (so exhaustion yields the
last error); the waits slept between consecutive attempts are
1s, 2s, 4s, 8s (`2^k` for `k` up to `attempts - 2`); every attempt before
the last failed with a transient error (network error, HTTP 429 or 503) —
so a non-transient failure is never retried; and a failing run either
ended on a non-transient error or used all 5 attempts. -/
theorem C2_ensure_collection_retry_policy
    (oracle : Nat → NetResult × NetResult) :
    (1 ≤ (Qdrant.ensure_collection oracle).attempts
      ∧ (Qdrant.ensure_collection oracle).attempts ≤ 5)
    ∧ (Qdrant.ensure_collection oracle).result
        = Qdrant.try_ensure_collection
            (oracle (Qdrant.ensure_collection oracle).attempts).1
            (oracle (Qdrant.ensure_collection oracle).attempts).2
    ∧ (Qdrant.ensure_collection oracle).waits
        = (List.range ((Qdrant.ensure_collection oracle).attempts - 1)).map
            (fun k => 2 ^ k)
    ∧ (∀ k, 1 ≤ k → k < (Qdrant.ensure_collection oracle).attempts →
        ∃ e, Qdrant.try_ensure_collection (oracle k).1 (oracle k).2 = .error e
          ∧ Qdrant.is_transient e = true)
    ∧ (∀ e, (Qdrant.ensure_collection oracle).result = .error e →
        Qdrant.is_transient e = false
          ∨ (Qdrant.ensure_collection oracle).attempts = 5) := by
  simp only [Qdrant.ensure_collection]
  have h := ensureLoop_spec oracle 5 0 (by omega) (by omega)
  simp only [EnsureSpec] at h
  rcases h with ⟨⟨hb1, hb2⟩, hres, hwaits, hbetween, hfinal⟩
  refine ⟨⟨by omega, hb2⟩, hres, ?_, fun k hk1 hk2 => hbetween k (by omega) hk2,
    hfinal⟩
  rw [List.range_eq_range']
  simpa using hwaits

/-- The spec's provisioning-retry scenario: a 503 on attempts 1 and 2 and
a 200 on attempt 3 succeeds after retrying, with increasing backoff waits
of 1 s then 2 s. -/
theorem ensure_collection_retries_503_then_succeeds :
    Qdrant.ensure_collection ex503TwiceOracle
      = { result := .ok (), attempts := 3, waits := [1, 2] } := rfl

/-- The spec's fail-fast scenario: a 500 on the existence check fails
immediately, with a single attempt and no backoff wait. -/
theorem ensure_collection_fails_fast_on_500 :
    Qdrant.ensure_collection ex500Oracle
      = { result := .error (.api 500 "internal error"), attempts := 1,
          waits := [] } := rfl

/-- C4: for every store state, query embedding, limit and optional session
filter, `MemoryStore::search` returns at most `limit` results, sorted by
score in descending order, and under a session filter every returned
result carries exactly that session tag (so untagged entries are never
returned). -/
theorem C4_search_limit_order_session (m : Mem.MemoryMap)
    (sim : List Rat → List Rat → Rat) (q : List Rat) (limit : Nat)
    (sess : Option String) :
    (Mem.search m sim q limit sess).length ≤ limit
    ∧ (Mem.search m sim q limit sess).Sorted (fun a b => b.score ≤ a.score)
    ∧ (∀ s, sess = some s →
        ∀ r ∈ Mem.search m sim q limit sess,
          r.session = some s
          ∧ ∃ e ∈ m.map Prod.snd, r.id = e.id ∧ e.session = some s) := by
  refine ⟨?_, ?_, ?_⟩
  · simp only [Mem.search]
    rw [List.length_take]
    exact min_le_left _ _
  · exact Mem.search_sorted m sim q limit sess
  · intro s hs r hr
    rcases Mem.mem_search_imp m sim q limit sess r hr
      with ⟨e, hmem, hid, hsess, hke⟩
    exact ⟨by rw [hsess]; exact hke s hs, e, hmem, hid, hke s hs⟩

/-- C7: on a well-formed store state (entries keyed by their own id),
`MemoryStore::delete` returns `true` exactly when an entry with that id
existed; afterwards the id is gone, a second delete returns `false`, and
no subsequent search can return that id. -/
theorem C7_delete_semantics (m : Mem.MemoryMap) (id : String)
    (wf : ∀ p ∈ m, p.2.id = p.1) :
    ((Mem.delete m id).1 = true ↔ containsKey id m = true)
    ∧ containsKey id (Mem.delete m id).2 = false
    ∧ (Mem.delete (Mem.delete m id).2 id).1 = false
    ∧ (∀ sim q limit sess r,
        r ∈ Mem.search (Mem.delete m id).2 sim q limit sess → r.id ≠ id) := by
  refine ⟨Iff.rfl, containsKey_removeKey id m, containsKey_removeKey id m, ?_⟩
  intro sim q limit sess r hr
  rcases Mem.mem_search_imp _ sim q limit sess r hr with ⟨e, he, hid, _, _⟩
  rcases List.mem_map.1 he with ⟨p, hp, hpe⟩
  have h1 := (mem_removeKey id m p).1 hp
  have h2 := wf p h1.1
  rw [hid, ← hpe, h2]
  exact h1.2

/-- Witness for C7 at a concrete one-entry store. -/
theorem C7_delete_semantics_witness :
    containsKey "a"
      (Mem.delete [("a", ({ id := "a", text := "t", metadata := [],
                            session := none, embedding := [1] }
                          : Mem.MemoryEntry))] "a").2 = false
    ∧ (Mem.delete
        (Mem.delete [("a", ({ id := "a", text := "t", metadata := [],
                              session := none, embedding := [1] }
                            : Mem.MemoryEntry))] "a").2
        "a").1 = false :=
  ⟨(C7_delete_semantics _ "a" (by decide)).2.1,
   (C7_delete_semantics [("a", { id := "a", text := "t", metadata := [],
                                 session := none, embedding := [1] })] "a"
      (by decide)).2.2.1⟩

/-- C9: every reachable state of the in-process store keeps each entry
under the key equal to the entry's own `id` field, and `store` returns
exactly the key under which the new entry was inserted. -/
theorem C9_key_id_invariant (m : Mem.MemoryMap) (hm : Mem.Reachable m)
    (freshId text : String) (metadata : List (String × String))
    (session : Option String) (embedding : List Rat) :
    (∀ p ∈ m, p.2.id = p.1)
    ∧ (Mem.store m freshId text metadata session embedding).1 = freshId
    ∧ lookupKey freshId (Mem.store m freshId text metadata session embedding).2
        = some { id := freshId, text := text, metadata := metadata,
                 session := session, embedding := embedding } :=
  ⟨Mem.reachable_key_eq_id m hm, rfl, lookupKey_insertKey freshId _ m⟩

/-- Witness for C9 at a concrete reachable state (new → store → delete). -/
theorem C9_key_id_invariant_witness :
    (Mem.store (Mem.delete (Mem.store [] "u1" "hello" [] none [1]).2 "u1").2
      "u2" "bye" [] (some "s") [2]).1 = "u2"
    ∧ lookupKey "u2"
        (Mem.store (Mem.delete (Mem.store [] "u1" "hello" [] none [1]).2
          "u1").2 "u2" "bye" [] (some "s") [2]).2
        = some { id := "u2", text := "bye", metadata := [],
                 session := some "s", embedding := [2] } :=
  ⟨(C9_key_id_invariant _
      (Mem.Reachable.step_delete _ "u1"
        (Mem.Reachable.step_store _ "u1" "hello" [] none [1]
          Mem.Reachable.new))
      "u2" "bye" [] (some "s") [2]).2.1,
   (C9_key_id_invariant _
      (Mem.Reachable.step_delete _ "u1"
        (Mem.Reachable.step_store _ "u1" "hello" [] none [1]
          Mem.Reachable.new))
      "u2" "bye" [] (some "s") [2]).2.2⟩

/-- C1: a metadata map containing the reserved key `text` or the reserved
key `session_id` makes the remote-store upsert route fail with a
`BadRequest` error before any effect (no embedding call, no session-store
call, no network request: the effect trace is empty); independently,
`QdrantStore::upsert` itself rejects a `text` metadata key with
`BadRequest` and sends nothing. -/
theorem C1_reserved_key_rejected_before_effects
    (env : Routes.HandlerEnv) (po : Option String)
    (body : Routes.StoreMemoryQdrantRequest)
    (id : Option String) (freshId : String) (vector : List Rat)
    (text : String) (metadata : List (String × Json)) (net : NetResult) :
    ((containsKey "text" body.metadata = true
        ∨ containsKey "session_id" body.metadata = true) →
      (∃ msg, (Routes.store_memory_qdrant env po body).1
          = .error (.badRequest msg))
      ∧ (Routes.store_memory_qdrant env po body).2 = [])
    ∧ (containsKey "text" metadata = true →
        Qdrant.upsert id freshId vector text metadata net
          = (.error (.badRequest Qdrant.RESERVED_TEXT_KEY_MESSAGE), [])) := by
  constructor
  · intro hres
    by_cases hT : body.text.isEmpty
    · constructor
      · exact ⟨Routes.EMPTY_TEXT_ERROR, by simp [Routes.store_memory_qdrant, hT]⟩
      · simp [Routes.store_memory_qdrant, hT]
    · by_cases htext : containsKey "text" body.metadata = true
      · constructor
        · exact ⟨Routes.RESERVED_TEXT_KEY_ERROR,
            by simp [Routes.store_memory_qdrant, hT, htext]⟩
        · simp [Routes.store_memory_qdrant, hT, htext]
      · have hses : containsKey "session_id" body.metadata = true := by
          rcases hres with h | h
          · exact absurd h htext
          · exact h
        constructor
        · exact ⟨Routes.RESERVED_SESSION_ID_KEY_ERROR,
            by simp [Routes.store_memory_qdrant, hT, htext, hses]⟩
        · simp [Routes.store_memory_qdrant, hT, htext, hses]
  · intro hmeta
    simp [Qdrant.upsert, hmeta]

/-- Witness for C1: the concrete requests with reserved `text` and
reserved `session_id` metadata keys are both rejected with an empty
effect trace, and so is a direct upsert with a reserved `text` key. -/
theorem C1_reserved_key_rejected_before_effects_witness :
    ((Routes.store_memory_qdrant exEnv none exBodyTextKey).2 = []
      ∧ (Routes.store_memory_qdrant exEnv none exBodySessionKey).2 = [])
    ∧ Qdrant.upsert none "f" [1] "hello" [("text", Json.str "oops")]
        (.status 200 "ok")
      = (.error (.badRequest Qdrant.RESERVED_TEXT_KEY_MESSAGE), []) :=
  ⟨⟨(C1_reserved_key_rejected_before_effects exEnv none exBodyTextKey
        none "f" [1] "hello" [] (.status 200 "ok")).1
      (Or.inl (by decide)) |>.2,
    (C1_reserved_key_rejected_before_effects exEnv none exBodySessionKey
        none "f" [1] "hello" [] (.status 200 "ok")).1
      (Or.inr (by decide)) |>.2⟩,
   (C1_reserved_key_rejected_before_effects exEnv none exBodyTextKey
        none "f" [1] "hello" [("text", Json.str "oops")]
        (.status 200 "ok")).2 (by decide)⟩

/-- C6: a successful remote search returns exactly the backend's hits,
converted hit-by-hit in backend order (no re-sorting); per hit, a string
id is kept as is and a numeric id is rendered to a string, the score is
passed through, the reserved `text` key is removed from the payload (its
string value becoming the result text, absence defaulting to the empty
string without failing), and the remaining payload is the metadata. -/
theorem C6_search_result_normalization
    (vector : List Rat) (limit : Nat) (thr : Option Rat) (code : Nat)
    (bodyText : String) (hits : List Qdrant.QdrantHit)
    (hcode : isSuccess code = true) :
    Qdrant.search vector limit thr (.response code bodyText (some hits))
      = .ok (hits.map Qdrant.SearchResult.ofHit)
    ∧ (∀ (s : String) (sc : Rat) (p : List (String × Json)),
        (Qdrant.SearchResult.ofHit
          { id := .str s, score := sc, payload := p }).id = s)
    ∧ (∀ (n : Int) (sc : Rat) (p : List (String × Json)),
        (Qdrant.SearchResult.ofHit
          { id := .num n, score := sc, payload := p }).id = toString n)
    ∧ (∀ hit : Qdrant.QdrantHit,
        (Qdrant.SearchResult.ofHit hit).score = hit.score
        ∧ (Qdrant.SearchResult.ofHit hit).metadata
            = removeKey "text" hit.payload
        ∧ containsKey "text" (Qdrant.SearchResult.ofHit hit).metadata = false
        ∧ (∀ s, lookupKey "text" hit.payload = some (.str s) →
            (Qdrant.SearchResult.ofHit hit).text = s)
        ∧ (lookupKey "text" hit.payload = none →
            (Qdrant.SearchResult.ofHit hit).text = "")) := by
  refine ⟨by simp [Qdrant.search, hcode], fun s sc p => rfl, fun n sc p => rfl,
    fun hit => ⟨rfl, rfl, containsKey_removeKey _ _, ?_, ?_⟩⟩
  · intro s hs
    simp [Qdrant.SearchResult.ofHit, hs]
  · intro hs
    simp [Qdrant.SearchResult.ofHit, hs]

/-- Witness for C6 on a concrete 200 response with one hit, fully
evaluated. -/
theorem C6_search_result_normalization_witness :
    isSuccess 200 = true
    ∧ Qdrant.search [1] 5 none
        (.response 200 "ok"
          (some [{ id := .str "h1", score := 1,
                   payload := [("text", Json.str "orig"),
                               ("source", Json.str "unit")] }]))
        = .ok [{ id := "h1", score := 1, text := "orig",
                 metadata := [("source", Json.str "unit")] }] :=
  ⟨rfl,
   (C6_search_result_normalization [1] 5 none 200 "ok"
      [{ id := .str "h1", score := 1,
         payload := [("text", Json.str "orig"),
                     ("source", Json.str "unit")] }] (by decide)).1.trans
     (by rfl)⟩

/-- C10: a payload entry under the reserved key `text` whose value is not
a JSON string is removed from the payload, the result text defaults to the
empty string, and the non-string value appears neither as text nor in the
metadata. -/
theorem C10_nonstring_text_value_dropped (hit : Qdrant.QdrantHit) (v : Json)
    (hlook : lookupKey "text" hit.payload = some v) (hns : v.isStr = false) :
    (Qdrant.SearchResult.ofHit hit).text = ""
    ∧ (Qdrant.SearchResult.ofHit hit).metadata = removeKey "text" hit.payload
    ∧ containsKey "text" (Qdrant.SearchResult.ofHit hit).metadata = false := by
  refine ⟨?_, rfl, containsKey_removeKey _ _⟩
  cases v with
  | str s => simp [Json.isStr] at hns
  | num n => simp [Qdrant.SearchResult.ofHit, hlook]
  | boolean b => simp [Qdrant.SearchResult.ofHit, hlook]
  | null => simp [Qdrant.SearchResult.ofHit, hlook]
  | arr es => simp [Qdrant.SearchResult.ofHit, hlook]
  | obj fs => simp [Qdrant.SearchResult.ofHit, hlook]

/-- Witness for C10 on a concrete hit whose `text` payload value is the
JSON number 42. -/
theorem C10_nonstring_text_value_dropped_witness :
    (Qdrant.SearchResult.ofHit
      { id := .num 7, score := 1,
        payload := [("text", Json.num 42), ("k", Json.str "v")] }).text = ""
    ∧ containsKey "text"
        (Qdrant.SearchResult.ofHit
          { id := .num 7, score := 1,
            payload := [("text", Json.num 42),
                        ("k", Json.str "v")] }).metadata = false :=
  ⟨(C10_nonstring_text_value_dropped
      { id := .num 7, score := 1,
        payload := [("text", Json.num 42), ("k", Json.str "v")] }
      (Json.num 42) rfl rfl).1,
   (C10_nonstring_text_value_dropped
      { id := .num 7, score := 1,
        payload := [("text", Json.num 42), ("k", Json.str "v")] }
      (Json.num 42) rfl rfl).2.2⟩

/-- Each `build_provider` call either succeeds on a recognized provider
type or fails with the `ConfigError` naming the unknown type. -/
theorem build_provider_cases (name : String) (cfg : Emb.ProviderConfig) :
    (Emb.recognizedProviderType cfg.provider_type = true
      ∧ ∃ p, Emb.build_provider name cfg = .ok p)
    ∨ (Emb.recognizedProviderType cfg.provider_type = false
      ∧ Emb.build_provider name cfg
          = .error (.configError
              ("Unknown provider type: \x27" ++ cfg.provider_type ++ "\x27"))) := by
  by_cases h1 : cfg.provider_type = "ollama"
  · exact Or.inl ⟨by simp [Emb.recognizedProviderType, h1],
      ⟨Emb.OllamaProvider.new cfg, by simp [Emb.build_provider, h1]⟩⟩
  · by_cases h2 : cfg.provider_type = "openai"
    · exact Or.inl ⟨by simp [Emb.recognizedProviderType, h2],
        ⟨Emb.OpenAIProvider.new cfg, by simp [Emb.build_provider, h1, h2]⟩⟩
    · by_cases h3 : cfg.provider_type = "claude"
      · exact Or.inl ⟨by simp [Emb.recognizedProviderType, h3],
          ⟨Emb.ClaudeProvider.new cfg,
           by simp [Emb.build_provider, h1, h2, h3]⟩⟩
      · refine Or.inr ⟨by simp [Emb.recognizedProviderType, h1, h2, h3], ?_⟩
        unfold Emb.build_provider
        split
        · next h => exact absurd h h1
        · next h => exact absurd h h2
        · next h => exact absurd h h3
        · rfl

/-- `buildProviders` succeeds exactly when every configured provider type
is recognized. -/
theorem buildProviders_ok_iff (l : List (String × Emb.ProviderConfig)) :
    (∃ ps, Emb.buildProviders l = .ok ps)
      ↔ ∀ p ∈ l, Emb.recognizedProviderType p.2.provider_type = true := by
  induction l with
  | nil => simp [Emb.buildProviders]
  | cons hd tl ih =>
      obtain ⟨nm, c⟩ := hd
      constructor
      · rintro ⟨ps, hps⟩
        simp only [Emb.buildProviders] at hps
        cases hb : Emb.build_provider nm c with
        | error e => rw [hb] at hps; cases hps
        | ok p =>
            rw [hb] at hps
            cases hrest : Emb.buildProviders tl with
            | error e => rw [hrest] at hps; cases hps
            | ok ps2 =>
                intro q hq
                rcases List.mem_cons.1 hq with hq | hq
                · subst hq
                  rcases build_provider_cases nm c with ⟨hr, _⟩ | ⟨_, hbad⟩
                  · exact hr
                  · rw [hbad] at hb; cases hb
                · exact ih.1 ⟨ps2, hrest⟩ q hq
      · intro h
        rcases build_provider_cases nm c with ⟨_, p, hp⟩ | ⟨hbad, _⟩
        · rcases ih.2 (fun q hq => h q (List.mem_cons_of_mem _ hq)) with ⟨ps, hps⟩
          exact ⟨(nm, p) :: ps, by simp [Emb.buildProviders, hp, hps]⟩
        · have := h (nm, c) (List.mem_cons_self _ _)
          rw [hbad] at this
          cases this

/-- A `buildProviders` failure is the `ConfigError` of some configured
provider with an unrecognized type. -/
theorem buildProviders_error (l : List (String × Emb.ProviderConfig))
    (e : EmbeddingError) (h : Emb.buildProviders l = .error e) :
    ∃ p ∈ l, Emb.recognizedProviderType p.2.provider_type = false
      ∧ e = .configError
          ("Unknown provider type: \x27" ++ p.2.provider_type ++ "\x27") := by
  induction l with
  | nil => simp [Emb.buildProviders] at h
  | cons hd tl ih =>
      obtain ⟨nm, c⟩ := hd
      simp only [Emb.buildProviders] at h
      cases hb : Emb.build_provider nm c with
      | error e2 =>
          rw [hb] at h
          cases h
          rcases build_provider_cases nm c with ⟨_, _, hp⟩ | ⟨hbad, herr⟩
          · rw [hp] at hb; cases hb
          · rw [herr] at hb
            cases hb
            exact ⟨(nm, c), List.mem_cons_self _ _, hbad, rfl⟩
      | ok p =>
          rw [hb] at h
          cases hrest : Emb.buildProviders tl with
          | error e2 =>
              rw [hrest] at h
              cases h
              rcases ih hrest with ⟨q, hq, hrec, heq⟩
              exact ⟨q, List.mem_cons_of_mem _ hq, hrec, heq⟩
          | ok ps => rw [hrest] at h; cases h

/-- C5 counterexample: the Ollama provider maps an HTTP 401 to
`ProviderError { status := 401, .. }`, not to `AuthenticationError`, so
"every provider implementation maps 401/403 to AuthenticationError" fails
on this code. -/
theorem C5_counterexample_ollama_401 :
    Emb.OllamaProvider.embed (.response 401 "Unauthorized" none)
      = .error (.providerError 401 "Unauthorized")
    ∧ Emb.OllamaProvider.embed (.response 401 "Unauthorized" none)
      ≠ .error .authenticationError := by
  refine ⟨rfl, ?_⟩
  intro h
  rw [show Emb.OllamaProvider.embed (.response 401 "Unauthorized" none)
        = .error (.providerError 401 "Unauthorized") from rfl] at h
  simp at h

/-- C5 (amended): the OpenAI and Claude providers map HTTP 401/403 to
`AuthenticationError` (Claude provided its api key is non-empty; an empty
key already short-circuits to `AuthenticationError`); the Ollama provider
maps every non-success response — including 401/403 — to
`ProviderError{status, body}`; OpenAI and Claude map any other non-success
response to `ProviderError{status, body}`; and all three map a successful
response whose embedding array is empty to `InvalidResponse`. -/
theorem C5_provider_failure_mapping (status : Nat) (bodyText key : String)
    (po : Option Emb.OllamaResponse) (pa : Option Emb.OpenAIResponse)
    (pc : Option Emb.ClaudeResponse) :
    ((status = 401 ∨ status = 403) →
      Emb.OpenAIProvider.embed (.response status bodyText pa)
        = .error .authenticationError
      ∧ (key.isEmpty = false →
          Emb.ClaudeProvider.embed key (.response status bodyText pc)
            = .error .authenticationError))
    ∧ (isSuccess status = false →
        Emb.OllamaProvider.embed (.response status bodyText po)
          = .error (.providerError status bodyText))
    ∧ (isSuccess status = false → status ≠ 401 → status ≠ 403 →
        Emb.OpenAIProvider.embed (.response status bodyText pa)
          = .error (.providerError status bodyText)
        ∧ (key.isEmpty = false →
            Emb.ClaudeProvider.embed key (.response status bodyText pc)
              = .error (.providerError status bodyText)))
    ∧ (isSuccess status = true →
        Emb.OllamaProvider.embed (.response status bodyText (some ⟨[]⟩))
          = .error (.invalidResponse "Empty embeddings array")
        ∧ Emb.OpenAIProvider.embed (.response status bodyText (some ⟨[]⟩))
          = .error (.invalidResponse "Empty data array")
        ∧ (key.isEmpty = false →
            Emb.ClaudeProvider.embed key (.response status bodyText (some ⟨[]⟩))
              = .error (.invalidResponse "Empty data array"))) := by
  refine ⟨?_, ?_, ?_, ?_⟩
  · rintro (h | h) <;> subst h
    · exact ⟨rfl, fun hk => by simp [Emb.ClaudeProvider.embed, hk]⟩
    · exact ⟨rfl, fun hk => by simp [Emb.ClaudeProvider.embed, hk]⟩
  · intro hns
    simp [Emb.OllamaProvider.embed, hns]
  · intro hns h1 h3
    constructor
    · simp [Emb.OpenAIProvider.embed, beq_iff_eq, h1, h3, hns]
    · intro hk
      simp [Emb.ClaudeProvider.embed, beq_iff_eq, hk, h1, h3, hns]
  · intro hsucc
    have h1 : status ≠ 401 := by
      intro h; subst h; simp [isSuccess] at hsucc
    have h3 : status ≠ 403 := by
      intro h; subst h; simp [isSuccess] at hsucc
    refine ⟨by simp [Emb.OllamaProvider.embed, hsucc], ?_, ?_⟩
    · simp [Emb.OpenAIProvider.embed, beq_iff_eq, h1, h3, hsucc]
    · intro hk
      simp [Emb.ClaudeProvider.embed, beq_iff_eq, hk, h1, h3, hsucc]

/-- Witness for the amended C5 at concrete inputs: OpenAI on a 401, Ollama
on a 500 and on an empty success. -/
theorem C5_provider_failure_mapping_witness :
    Emb.OpenAIProvider.embed (.response 401 "x" none)
      = .error .authenticationError
    ∧ Emb.OllamaProvider.embed (.response 500 "model not found" none)
      = .error (.providerError 500 "model not found")
    ∧ Emb.OllamaProvider.embed (.response 200 "" (some ⟨[]⟩))
      = .error (.invalidResponse "Empty embeddings array") :=
  ⟨((C5_provider_failure_mapping 401 "x" "k" none none none).1
      (Or.inl rfl)).1,
   (C5_provider_failure_mapping 500 "model not found" "k" none none none).2.1
     (by decide),
   ((C5_provider_failure_mapping 200 "" "k" none none none).2.2.2
      (by decide)).1⟩

/-- C8: `ProviderRegistry::get` with a supplied name resolves that name
(and only it), failing with `ProviderNotFound` exactly when the name is
unregistered; `get` with no name behaves as `get` of the configured
default name; `from_config` succeeds (keeping the configured default
name) exactly when every configured provider type is recognized, and any
construction failure is the `ConfigError` of some unrecognized configured
type. -/
theorem C8_registry_contract (r : Emb.ProviderRegistry) (n : String)
    (cfg : Emb.EmbeddingConfig) :
    (∀ p, lookupKey n r.providers = some p → r.get (some n) = .ok p)
    ∧ (lookupKey n r.providers = none
        ↔ r.get (some n) = .error (.providerNotFound n))
    ∧ r.get none = r.get (some r.default)
    ∧ ((∃ reg, Emb.ProviderRegistry.from_config cfg = .ok reg
          ∧ reg.default = cfg.default_provider)
        ↔ ∀ p ∈ cfg.providers,
            Emb.recognizedProviderType p.2.provider_type = true)
    ∧ (∀ e, Emb.ProviderRegistry.from_config cfg = .error e →
        ∃ p ∈ cfg.providers,
          Emb.recognizedProviderType p.2.provider_type = false
          ∧ e = .configError
              ("Unknown provider type: \x27" ++ p.2.provider_type ++ "\x27")) := by
  refine ⟨?_, ⟨?_, ?_⟩, rfl, ⟨?_, ?_⟩, ?_⟩
  · intro p hp
    simp [Emb.ProviderRegistry.get, hp]
  · intro hnone
    simp [Emb.ProviderRegistry.get, hnone]
  · intro hget
    cases hl : lookupKey n r.providers with
    | none => rfl
    | some p =>
        rw [show r.get (some n) = .ok p by simp [Emb.ProviderRegistry.get, hl]]
          at hget
        cases hget
  · rintro ⟨reg, hreg, hdef⟩
    cases hb : Emb.buildProviders cfg.providers with
    | error e =>
        rw [show Emb.ProviderRegistry.from_config cfg = .error e by
          simp [Emb.ProviderRegistry.from_config, hb]] at hreg
        cases hreg
    | ok ps => exact (buildProviders_ok_iff cfg.providers).1 ⟨ps, hb⟩
  · intro h
    rcases (buildProviders_ok_iff cfg.providers).2 h with ⟨ps, hps⟩
    exact ⟨{ providers := ps, default := cfg.default_provider },
      by simp [Emb.ProviderRegistry.from_config, hps], rfl⟩
  · intro e he
    cases hb : Emb.buildProviders cfg.providers with
    | error e2 =>
        rw [show Emb.ProviderRegistry.from_config cfg = .error e2 by
          simp [Emb.ProviderRegistry.from_config, hb]] at he
        cases he
        exact buildProviders_error cfg.providers _ hb
    | ok ps =>
        rw [show Emb.ProviderRegistry.from_config cfg
            = .ok { providers := ps, default := cfg.default_provider } by
          simp [Emb.ProviderRegistry.from_config, hb]] at he
        cases he

/-- A registry built from a config containing an unrecognized provider
type fails with the corresponding `ConfigError` (concrete example). -/
theorem from_config_rejects_unknown_type :
    Emb.ProviderRegistry.from_config
      { default_provider := "x",
        providers := [("x", { provider_type := "watsonx", base_url := "u",
                              model := "m", api_key := none,
                              auth_scheme := none,
                              embeddings_path := none })] }
      = .error (.configError "Unknown provider type: \x27watsonx\x27") := rfl

end AgentMemory
